import Mathlib

/-!
Verification development for the mcp-business-intelligence gateway.

The session/authorization gateway of `src/server.ts` is embedded shallowly:
the HTTP fetch handler for the `/mcp` endpoint becomes a pure state-passing
function `handleMcp`, the in-memory `transports` record becomes an
association list, and the signup handler becomes `signup`.  The Key Store
and Authorizer (`lib/auth`) and the OAuth Bridge (`lib/oauth`) are not part
of the provided sources; they are modelled from the specification and each
such definition is marked accordingly in its doc comment.
-/

/-- Modelled from the spec: the subscription tiers of `lib/auth`
(`type Tier`), a fixed ordered set free < starter < pro < business. -/
inductive Tier where
  | free
  | starter
  | pro
  | business
deriving DecidableEq

/-- Modelled from the spec: `TIER_LIMITS` of `lib/auth`, the monthly request
limits per tier as published in the pricing table (README). -/
def TIER_LIMITS : Tier → Nat
  | .free => 10
  | .starter => 200
  | .pro => 1000
  | .business => 5000

/-- Modelled from the spec: an account record of the Key Store (`lib/auth`):
unique key, owner name, unique owner email, tier, and a mapping from
calendar month string (YYYY-MM) to the usage count of that month. -/
structure Account where
  key : String
  name : String
  email : String
  tier : Tier
  usage : String → Nat

/-- Modelled from the spec: the Key Store (`lib/auth`), a durable collection
of account records. -/
structure KeyStore where
  accounts : List Account

/-- Increment the usage counter of one account for the given month. -/
def bumpUsage (month : String) (a : Account) : Account :=
  { a with usage := fun m => if m = month then a.usage m + 1 else a.usage m }

/-- Modelled from the spec: `recordUsage(key)` of `lib/auth` increments the
current month counter of the matching account by one; a missing key leaves
the store unchanged (NotFound). -/
def recordUsage (st : KeyStore) (month key : String) : KeyStore :=
  { accounts := st.accounts.map (fun a => if a.key == key then bumpUsage month a else a) }

/-- Iterate `recordUsage` N times, one call per metered invocation. -/
def recordUsageN (st : KeyStore) (month key : String) : Nat → KeyStore
  | 0 => st
  | n + 1 => recordUsage (recordUsageN st month key n) month key

/-- Modelled from the spec: `usageSnapshot(key)` / `getKeyUsage` of
`lib/auth`: tier, the tier limit and the usage of the given month. -/
def getKeyUsage (st : KeyStore) (month key : String) : Option (Tier × Nat × Nat) :=
  (st.accounts.find? (fun a => a.key == key)).map
    (fun a => (a.tier, TIER_LIMITS a.tier, a.usage month))

/-- Modelled from the spec: `lookupByEmail` / `getKeyByEmail` of `lib/auth`. -/
def getKeyByEmail (st : KeyStore) (email : String) : Option Account :=
  st.accounts.find? (fun a => a.email == email)

/-- Modelled from the spec: `upgradeTier(email, newTier)` / `upgradeKey` of
`lib/auth`: mutates the tier of the account owning the email. -/
def upgradeKey (st : KeyStore) (email : String) (newTier : Tier) : KeyStore :=
  { accounts := st.accounts.map (fun a => if a.email == email then { a with tier := newTier } else a) }

/-- Modelled from the spec: `createAccount(name, tier, email) -> key` /
`createApiKey` of `lib/auth`: registers a fresh account under a fresh key
(the fresh key is passed in explicitly) and returns the key. -/
def createApiKey (st : KeyStore) (freshKey name : String) (tier : Tier) (email : String) :
    KeyStore × String :=
  ({ accounts := { key := freshKey, name := name, email := email, tier := tier,
                   usage := fun _ => 0 } :: st.accounts }, freshKey)

/-- Modelled from the spec: the denial taxonomy of the Authorizer. -/
inductive DenialReason where
  | MissingCredential
  | UnknownCredential
  | QuotaExceeded
deriving DecidableEq

/-- Modelled from the spec: the transient authorization decision. -/
inductive Decision where
  | ok (tier : Tier) (name : String)
  | denied (reason : DenialReason)
deriving DecidableEq

/-- Modelled from the spec: `authorize(credential)` / `validateApiKey` of
`lib/auth`.  An absent or empty credential is MissingCredential; a bearer
token is first resolved through the OAuth token table; an unresolved
credential is UnknownCredential; an account at or over its monthly limit is
QuotaExceeded; otherwise the decision carries tier and display name. -/
def validateApiKey (tokens : List (String × String)) (st : KeyStore) (month : String)
    (cred : Option String) : Decision :=
  match cred with
  | none => .denied .MissingCredential
  | some c =>
    if c = "" then .denied .MissingCredential
    else
      let key := (tokens.lookup c).getD c
      match st.accounts.find? (fun a => a.key == key) with
      | none => .denied .UnknownCredential
      | some a =>
        if TIER_LIMITS a.tier ≤ a.usage month then .denied .QuotaExceeded
        else .ok a.tier a.name

example :
    validateApiKey [] { accounts := [] } "2026-10" none = .denied .MissingCredential := rfl

example :
    validateApiKey []
      { accounts := [{ key := "sk_a", name := "Alice", email := "a@x.com",
                       tier := .free, usage := fun _ => 0 }] }
      "2026-10" (some "sk_a") = .ok .free "Alice" := rfl

example :
    validateApiKey []
      { accounts := [{ key := "sk_a", name := "Alice", email := "a@x.com",
                       tier := .free, usage := fun _ => 10 }] }
      "2026-10" (some "sk_a") = .denied .QuotaExceeded := rfl

example :
    getKeyUsage (recordUsageN
      { accounts := [{ key := "sk_a", name := "Alice", email := "a@x.com",
                       tier := .free, usage := fun _ => 0 }] } "2026-10" "sk_a" 3)
      "2026-10" "sk_a" = some (.free, 10, 3) := rfl

/-- Modelled from the spec: the externally visible error classes of the
OAuth Bridge (`lib/oauth`); every terminal-state violation collapses to
`InvalidGrant`. -/
inductive OAuthErr where
  | InvalidGrant
  | UnsupportedChallengeMethod
deriving DecidableEq

/-- Modelled from the spec: an authorization-code record of the OAuth
Bridge (`lib/oauth`): the opaque single-use code, the bound PKCE challenge
and its method, the resolved underlying API key, whether the code was
already exchanged (the EXCHANGED terminal state), and its expiry. -/
structure CodeRecord where
  code : String
  codeChallenge : String
  challengeMethod : String
  key : String
  exchanged : Bool
  expiresAt : Nat
deriving DecidableEq

/-- Modelled from the spec: the mutable state of the OAuth Bridge
(`lib/oauth`): issued authorization codes and the access-token table
mapping an opaque token to its underlying API key. -/
structure OAuthBridgeState where
  codes : List CodeRecord
  tokens : List (String × String)
deriving DecidableEq

/-- Modelled from the spec: `completeAuthorization` of the OAuth Bridge
(`lib/oauth`): transitions an authorization attempt to CODE_ISSUED, binding
a one-time code to the resolved identity key and the PKCE challenge. -/
def completeAuthorization (os : OAuthBridgeState) (code challenge method key : String)
    (expiresAt : Nat) : OAuthBridgeState :=
  { os with codes := { code := code, codeChallenge := challenge, challengeMethod := method,
                       key := key, exchanged := false, expiresAt := expiresAt } :: os.codes }

/-- Modelled from the spec: `exchangeCode(code, codeVerifier)` of the OAuth
Bridge (`lib/oauth`).  The challenge transform selected by the stored
method is passed in as `transform` (for the plain method it is the
identity).  Unknown, already exchanged, expired, or challenge-mismatching
codes all yield `InvalidGrant`; success mints a fresh access token bound to
the resolved key and marks the code EXCHANGED (permanently unusable). -/
def exchangeCode (transform : String → String) (os : OAuthBridgeState) (now : Nat)
    (freshToken code verifier : String) : Except OAuthErr (String × OAuthBridgeState) :=
  match os.codes.find? (fun r => r.code == code) with
  | none => .error .InvalidGrant
  | some r =>
    if r.exchanged then .error .InvalidGrant
    else if r.expiresAt ≤ now then .error .InvalidGrant
    else if transform verifier = r.codeChallenge then
      .ok (freshToken,
        { codes := os.codes.map (fun c => if c.code == code then { c with exchanged := true } else c),
          tokens := (freshToken, r.key) :: os.tokens })
    else .error .InvalidGrant

/-- Modelled from the spec: `resolveToken(token) -> key | not found` of the
OAuth Bridge (`lib/oauth`). -/
def resolveToken (os : OAuthBridgeState) (token : String) : Option String :=
  os.tokens.lookup token

example :
    (exchangeCode (fun s => s)
      (completeAuthorization { codes := [], tokens := [] } "c1" "v1" "plain" "sk_a" 600)
      0 "tok1" "c1" "v1").toOption.map Prod.fst = some "tok1" := rfl

example :
    exchangeCode (fun s => s)
      (completeAuthorization { codes := [], tokens := [] } "c1" "v1" "plain" "sk_a" 600)
      0 "tok1" "c1" "wrong" = .error .InvalidGrant := rfl

/-- HTTP methods the `/mcp` route distinguishes (`server.ts` fetch handler;
OPTIONS is answered earlier by the CORS preflight branch). -/
inductive HMethod where
  | GET
  | POST
  | DELETE
deriving DecidableEq

/-- Shape of a parsed JSON-RPC request body as far as `server.ts` inspects
it: the `method` string (`body?.method`) and, for `tools/call`, the tool
name dispatched on by the registered tool handlers. -/
structure RpcBody where
  method : String
  toolName : Option String
deriving DecidableEq

/-- One inbound request to the `/mcp` route, restricted to the fields
`server.ts` reads: HTTP method, the `mcp-session-id` header, the four
credential carriers of lines 436-443 (`x-api-key` header, `apikey` header,
the `api_key` / `apiKey` / `apikey` query parameters, and the standard
`authorization` header), and the parsed body. -/
structure McpRequest where
  httpMethod : HMethod
  mcpSessionId : Option String
  x_api_key : Option String
  apikeyHeader : Option String
  q_api_key : Option String
  q_apiKey : Option String
  q_apikey : Option String
  authorization : Option String
  body : Option RpcBody
deriving DecidableEq

/-- Match of the regular expression used at `server.ts:436`
(`^Bearer\s+`, case-insensitive): on success, the characters after the
scheme word and the following whitespace run. -/
def bearerRest : List Char → Option (List Char)
  | b :: e :: a :: r :: e2 :: r2 :: w :: rest =>
    if b.toLower = 'b' ∧ e.toLower = 'e' ∧ a.toLower = 'a' ∧ r.toLower = 'r' ∧
       e2.toLower = 'e' ∧ r2.toLower = 'r' ∧ w.isWhitespace
    then some (rest.dropWhile Char.isWhitespace)
    else none
  | _ => none

/-- The `.replace(/^Bearer\s+/i, "")` of `server.ts:436`: strip a leading
case-insensitive Bearer scheme plus whitespace, otherwise return the header
value unchanged. -/
def stripBearer (s : String) : String :=
  match bearerRest s.data with
  | some cs => { data := cs }
  | none => s

/-- JavaScript `||` on nullable strings: an absent value and the empty
string are falsy, any other string short-circuits. -/
def jsOr (a b : Option String) : Option String :=
  match a with
  | some s => if s = "" then b else some s
  | none => b

/-- JavaScript truthiness of a nullable string (`if (!apiKey)`). -/
def jsTruthyOpt : Option String → Bool
  | none => false
  | some s => !(s = "")

/-- Credential extraction of `server.ts:436-443`: the `||` chain
`x-api-key` header, `apikey` header, `api_key` / `apiKey` / `apikey` query
parameters, then the Bearer token of the `authorization` header. -/
def extractApiKey (req : McpRequest) : Option String :=
  jsOr req.x_api_key
    (jsOr req.apikeyHeader
      (jsOr req.q_api_key
        (jsOr req.q_apiKey
          (jsOr req.q_apikey (req.authorization.map stripBearer)))))

example : extractApiKey
    { httpMethod := .POST, mcpSessionId := none, x_api_key := none, apikeyHeader := none,
      q_api_key := none, q_apiKey := none, q_apikey := none,
      authorization := some "Bearer sk_b", body := none } = some "sk_b" := rfl

example : extractApiKey
    { httpMethod := .POST, mcpSessionId := none, x_api_key := some "sk_h",
      apikeyHeader := none, q_api_key := some "sk_q", q_apiKey := none, q_apikey := none,
      authorization := some "Bearer sk_b", body := none } = some "sk_h" := rfl

/-- Outcome of dispatching a `tools/call` through the McpServer registered
in `createMcpServer` (`server.ts:70-254`): either an immediate text
result (the tier upgrade message of a gated tool) or the invocation of the
named external tool collaborator, whose generated report is out of scope. -/
inductive ToolOutcome where
  | textResult (text : String)
  | invokeExternal (fn : String)
  | unknownTool
deriving DecidableEq

/-- The `PRO_TIERS` list of `server.ts:173`. -/
def PRO_TIERS : List Tier := [.pro, .business]

/-- The `upgradeMsg` template of `server.ts:174-175`. -/
def upgradeMsg (toolName : String) : String :=
  "🔒 " ++ toolName ++ " requires a Pro or Business tier subscription.\n\nUpgrade at https://mcp.ezbizservices.com/pricing to unlock advanced tools including customer personas, pricing analysis, local market intelligence, and business plan generation."

/-- The Business-only upgrade message of `server.ts:246`. -/
def businessPlanUpgradeMsg : String :=
  "🔒 Business Plan Section Generator requires a Business tier subscription.\n\nUpgrade at https://mcp.ezbizservices.com/pricing to unlock business plan generation and all other advanced tools."

/-- Tool dispatch with the tier captured by the `createMcpServer(tier)`
closures (`server.ts:77-251`): the four free tools always invoke their
collaborator; the three Pro tools return `upgradeMsg` unless the captured
tier is in `PRO_TIERS`; `business_plan_section` requires exactly the
business tier. -/
def dispatchTool (tier : Tier) (toolName : Option String) : ToolOutcome :=
  match toolName with
  | some "analyze_competitors" => .invokeExternal "analyzeCompetitors"
  | some "industry_research" => .invokeExternal "conductIndustryResearch"
  | some "swot_analysis" => .invokeExternal "conductSwotAnalysis"
  | some "market_trends" => .invokeExternal "analyzeMarketTrends"
  | some "customer_persona" =>
    if !(PRO_TIERS.contains tier) then .textResult (upgradeMsg "Customer Persona Builder")
    else .invokeExternal "buildCustomerPersona"
  | some "pricing_analysis" =>
    if !(PRO_TIERS.contains tier) then .textResult (upgradeMsg "Pricing Analysis")
    else .invokeExternal "analyzePricing"
  | some "local_market_analysis" =>
    if !(PRO_TIERS.contains tier) then .textResult (upgradeMsg "Local Market Analysis")
    else .invokeExternal "analyzeLocalMarket"
  | some "business_plan_section" =>
    if tier ≠ Tier.business then .textResult businessPlanUpgradeMsg
    else .invokeExternal "generateBusinessPlanSection"
  | _ => .unknownTool

/-- One entry of the `transports` record (`server.ts:262-265`): the stored
credential (`apiKey || ""`) and the tier captured by the McpServer the
transport is connected to (`createMcpServer(authResult.tier || "free")` at
session creation, `server.ts:516`). -/
structure SessionEntry where
  apiKey : String
  serverTier : Tier
deriving DecidableEq

/-- The mutable server state touched by the `/mcp` route: the Key Store,
the OAuth access-token table consulted during credential resolution, and
the session registry `transports`. -/
structure ServerState where
  store : KeyStore
  tokens : List (String × String)
  transports : List (String × SessionEntry)

/-- Responses of the `/mcp` route, restricted to what `server.ts`
distinguishes.  Transport-forwarded outcomes (SSE stream, session close,
non-tool JSON-RPC traffic, tool dispatch) are kept abstract apart from the
data the handler itself determines. -/
inductive McpResponse where
  | authDenied (status : Nat) (code : Int) (reason : DenialReason)
  | keyRequired (status : Nat) (code : Int)
  | badRequest (status : Nat) (code : Int) (message : String)
  | sessionNotFound (status : Nat) (code : Int) (message : String)
  | sseStream (sid : String)
  | sessionClosed (sid : String)
  | toolResult (outcome : ToolOutcome)
  | forwarded (sid : String)
  | newSession (sid : String) (tier : Tier)
  | sdkRejected
deriving DecidableEq

/-- Is the response a structured protocol-level error (as opposed to an
admitted request reaching a transport or tool)? -/
def isProtocolError : McpResponse → Bool
  | .authDenied _ _ _ => true
  | .keyRequired _ _ => true
  | .badRequest _ _ _ => true
  | .sessionNotFound _ _ _ => true
  | .sdkRejected => true
  | _ => false

/-- The new-session POST branch of `server.ts:498-535`: a fresh transport
and a McpServer capturing the authorized tier are created, one init usage
event is recorded when a credential is present (line 520, before the
transport handles the request), and only an `initialize` body leads the SDK
transport to mint the session (`onsessioninitialized`, line 502-508) and
register it under the fresh identifier. -/
def newSessionPost (st : ServerState) (month freshSid : String) (apiKey : Option String)
    (tier : Tier) (req : McpRequest) : McpResponse × ServerState :=
  let store1 := if jsTruthyOpt apiKey then recordUsage st.store month (apiKey.getD "") else st.store
  match req.body with
  | some b =>
    if b.method = "initialize" then
      (.newSession freshSid tier,
       { st with store := store1,
                 transports := (freshSid, { apiKey := apiKey.getD "", serverTier := tier })
                                 :: st.transports })
    else (.sdkRejected, { st with store := store1 })
  | none => (.sdkRejected, { st with store := store1 })

/-- The `/mcp` route of `server.ts:407-549` as a state transformer.  GET
and DELETE are session-scoped (lines 413-433); POST first runs the
credential extraction and the authorization gate required on all MCP
requests (lines 436-469), then either forwards to an existing session,
recording one usage event per `tools/call` (lines 473-495), or bootstraps
a new session (lines 498-535). -/
def handleMcp (st : ServerState) (month freshSid : String) (req : McpRequest) :
    McpResponse × ServerState :=
  match req.httpMethod with
  | .GET =>
    match req.mcpSessionId with
    | some sid =>
      match List.lookup sid st.transports with
      | some _ => (.sseStream sid, st)
      | none =>
        (.badRequest 400 (-32000) "Bad request: GET requires a valid mcp-session-id. Start with POST.", st)
    | none =>
      (.badRequest 400 (-32000) "Bad request: GET requires a valid mcp-session-id. Start with POST.", st)
  | .DELETE =>
    match req.mcpSessionId with
    | some sid =>
      match List.lookup sid st.transports with
      | some _ =>
        (.sessionClosed sid,
         { st with transports := st.transports.filter (fun p => !(p.1 == sid)) })
      | none => (.sessionNotFound 404 (-32000) "Session not found", st)
    | none => (.sessionNotFound 404 (-32000) "Session not found", st)
  | .POST =>
    let apiKey := extractApiKey req
    match validateApiKey st.tokens st.store month apiKey with
    | .denied reason => (.authDenied 401 (-32001) reason, st)
    | .ok tier _ =>
      match req.mcpSessionId with
      | some sid =>
        match List.lookup sid st.transports with
        | some entry =>
          match req.body with
          | some b =>
            if b.method = "tools/call" then
              if !(jsTruthyOpt apiKey) then (.keyRequired 401 (-32001), st)
              else
                (.toolResult (dispatchTool entry.serverTier b.toolName),
                 { st with store := recordUsage st.store month (apiKey.getD "") })
            else (.forwarded sid, st)
          | none => (.forwarded sid, st)
        | none => newSessionPost st month freshSid apiKey tier req
      | none => newSessionPost st month freshSid apiKey tier req

/-- The authorization decision the Router computes for a request: the
Authorizer applied to the extracted credential against current state. -/
def routerDecision (st : ServerState) (month : String) (req : McpRequest) : Decision :=
  validateApiKey st.tokens st.store month (extractApiKey req)

/-- A POST request with no session header and no credential in any carrier. -/
def blankPost : McpRequest :=
  { httpMethod := .POST, mcpSessionId := none, x_api_key := none, apikeyHeader := none,
    q_api_key := none, q_apiKey := none, q_apikey := none, authorization := none, body := none }

/-- An anonymous POST carrying only a session header and a body. -/
def anonPostReq (sid : Option String) (body : Option RpcBody) : McpRequest :=
  { blankPost with mcpSessionId := sid, body := body }

/-- A `tools/call` POST for the given session, presenting the key in the
`x-api-key` header. -/
def toolsCallReq (sid key tool : String) : McpRequest :=
  { blankPost with mcpSessionId := some sid, x_api_key := some key,
                   body := some { method := "tools/call", toolName := some tool } }

/-- An `initialize` POST with no session header, presenting the key in the
`x-api-key` header. -/
def initReq (key : String) : McpRequest :=
  { blankPost with x_api_key := some key,
                   body := some { method := "initialize", toolName := none } }

/-- A DELETE for the given session identifier. -/
def deleteReq (sid : String) : McpRequest :=
  { blankPost with httpMethod := .DELETE, mcpSessionId := some sid }

/-- Result of the `POST /api/keys/signup` handler. -/
inductive SignupResult where
  | badRequest (error : String)
  | recovered (key : String) (tier : Tier) (limit used : Nat)
  | created (key : String) (tier : Tier) (limit : Nat)
deriving DecidableEq

/-- The free-tier signup handler of `server.ts:320-347`: missing name or
email is a 400; an email that already owns a key gets that key back with
`recovered: true` and the store untouched; otherwise a fresh free account
is created (`createApiKey`, modelled, receives the fresh key). -/
def signup (st : KeyStore) (month freshKey name email : String) : SignupResult × KeyStore :=
  if email = "" ∨ name = "" then (.badRequest "name and email required", st)
  else
    match getKeyByEmail st email with
    | some existing =>
      (.recovered existing.key existing.tier (TIER_LIMITS existing.tier) (existing.usage month), st)
    | none =>
      let created := createApiKey st freshKey name .free email
      (.created created.2 .free (TIER_LIMITS .free), created.1)

/-- The key a signup response hands to the caller. -/
def signupKey : SignupResult → Option String
  | .badRequest _ => none
  | .recovered key _ _ _ => some key
  | .created key _ _ => some key

/-- First value in the precedence list that JavaScript would treat as a
present, truthy credential.  This is the specification-side reading of the
fixed precedence order; it is compared against `extractApiKey`, which is
the embedding of the source chain. -/
def firstTruthy : List (Option String) → Option String
  | [] => none
  | none :: rest => firstTruthy rest
  | some s :: rest => if s = "" then firstTruthy rest else some s

/-- Follows the words of the spec: the accepted carriers in their
documented fixed precedence order - dedicated API-key header, alternate
API-key header, the query-string key parameter spellings, then the bearer
token of the standard authorization header - with the first match winning. -/
def specCredentialPrecedence (req : McpRequest) : Option String :=
  firstTruthy
    [req.x_api_key, req.apikeyHeader, req.q_api_key, req.q_apiKey, req.q_apikey,
     req.authorization.map stripBearer]

/-- The accepted credential carriers. -/
inductive Carrier where
  | xApiKeyHdr
  | apikeyAltHdr
  | queryApi_key
  | queryApiKeyCamel
  | queryApikeyLower
  | bearerAuthHdr
deriving DecidableEq

/-- A POST request presenting the credential through exactly one carrier. -/
def presentVia (c : Carrier) (k : String) : McpRequest :=
  match c with
  | .xApiKeyHdr => { blankPost with x_api_key := some k }
  | .apikeyAltHdr => { blankPost with apikeyHeader := some k }
  | .queryApi_key => { blankPost with q_api_key := some k }
  | .queryApiKeyCamel => { blankPost with q_apiKey := some k }
  | .queryApikeyLower => { blankPost with q_apikey := some k }
  | .bearerAuthHdr => { blankPost with authorization := some ("Bearer " ++ k) }

example :
    (handleMcp { store := { accounts := [] }, tokens := [], transports := [] }
      "2026-10" "s1" (anonPostReq none (some { method := "tools/list", toolName := none }))).1
      = .authDenied 401 (-32001) .MissingCredential := rfl

example :
    (handleMcp { store := { accounts := [] }, tokens := [], transports := [] }
      "2026-10" "s1" (deleteReq "nope")).1
      = .sessionNotFound 404 (-32000) "Session not found" := rfl

example :
    (signup { accounts := [] } "2026-10" "sk_f1" "Alice" "a@x.com").1
      = .created "sk_f1" .free 10 := rfl

example :
    (signup (signup { accounts := [] } "2026-10" "sk_f1" "Alice" "a@x.com").2
      "2026-10" "sk_f2" "Alice" "a@x.com").1
      = .recovered "sk_f1" .free 10 0 := rfl

/-! Helper lemmas. -/

theorem find?_map_bump (month key : String) :
    ∀ l : List Account,
      (l.map (fun a => if a.key == key then bumpUsage month a else a)).find?
          (fun a => a.key == key)
        = (l.find? (fun a => a.key == key)).map (bumpUsage month)
  | [] => rfl
  | a :: l => by
    by_cases hak : a.key = key
    · have h1 : (if a.key == key then bumpUsage month a else a) = bumpUsage month a := by
        simp [hak]
      rw [List.map_cons, h1, List.find?_cons_of_pos _ (by simp [bumpUsage, hak]),
          List.find?_cons_of_pos _ (by simp [hak]), Option.map_some']
    · have h1 : (if a.key == key then bumpUsage month a else a) = a := by
        simp [hak]
      rw [List.map_cons, h1, List.find?_cons_of_neg _ (by simp [hak]),
          List.find?_cons_of_neg _ (by simp [hak])]
      exact find?_map_bump month key l

/-- The result of repeatedly bumping one account at a fixed month. -/
def bumpUsageN (month : String) : Nat → Account → Account
  | 0, a => a
  | n + 1, a => bumpUsage month (bumpUsageN month n a)

theorem bumpUsageN_key (month : String) (n : Nat) (a : Account) :
    (bumpUsageN month n a).key = a.key := by
  induction n with
  | zero => rfl
  | succ n ih => simpa [bumpUsageN, bumpUsage] using ih

theorem bumpUsageN_tier (month : String) (n : Nat) (a : Account) :
    (bumpUsageN month n a).tier = a.tier := by
  induction n with
  | zero => rfl
  | succ n ih => simpa [bumpUsageN, bumpUsage] using ih

theorem bumpUsageN_usage (month : String) (n : Nat) (a : Account) :
    (bumpUsageN month n a).usage month = a.usage month + n := by
  induction n with
  | zero => rfl
  | succ n ih => simp [bumpUsageN, bumpUsage, ih, Nat.add_assoc]

theorem find?_recordUsageN (st : KeyStore) (month key : String) (a : Account)
    (ha : st.accounts.find? (fun x => x.key == key) = some a) :
    ∀ n, (recordUsageN st month key n).accounts.find? (fun x => x.key == key)
      = some (bumpUsageN month n a)
  | 0 => ha
  | n + 1 => by
    have ih := find?_recordUsageN st month key a ha n
    simp only [recordUsageN, recordUsage, find?_map_bump, ih, Option.map_some']
    rfl

theorem lookup_filter_self (sid : String) :
    ∀ l : List (String × SessionEntry),
      List.lookup sid (l.filter (fun p => !(p.1 == sid))) = none
  | [] => rfl
  | p :: l => by
    cases hb : (p.1 == sid) with
    | true => simpa [List.filter, hb] using lookup_filter_self sid l
    | false =>
      have hb2 : (sid == p.1) = false := by
        simp only [beq_eq_false_iff_ne] at hb ⊢
        exact Ne.symm hb
      simpa [List.filter, hb, List.lookup, hb2] using lookup_filter_self sid l

theorem jsOr_of_firstTruthy (k : String) (a : Option String) (l : List (Option String))
    (m : Option String) (ih : firstTruthy l = some k → m = some k) :
    firstTruthy (a :: l) = some k → jsOr a m = some k := by
  cases a with
  | none => intro h; exact ih h
  | some s =>
    by_cases hs : s = ""
    · intro h
      simp only [firstTruthy, hs, if_pos rfl] at h
      simpa [jsOr, hs] using ih h
    · intro h
      simp only [firstTruthy, if_neg hs] at h
      simpa [jsOr, hs] using h

theorem firstTruthy_single (k : String) (o : Option String) :
    firstTruthy [o] = some k → o = some k := by
  cases o with
  | none => intro h; cases h
  | some s =>
    by_cases hs : s = ""
    · intro h; simp [firstTruthy, hs] at h
    · intro h; simpa [firstTruthy, hs] using h

theorem extract_toolsCallReq (sid key tool : String) (hk : key ≠ "") :
    extractApiKey (toolsCallReq sid key tool) = some key := by
  simp [toolsCallReq, blankPost, extractApiKey, jsOr, hk]

theorem extract_initReq (key : String) (hk : key ≠ "") :
    extractApiKey (initReq key) = some key := by
  simp [initReq, blankPost, extractApiKey, jsOr, hk]

theorem validateApiKey_ok_ne_empty (tokens : List (String × String)) (st : KeyStore)
    (month key : String) (t : Tier) (n : String)
    (h : validateApiKey tokens st month (some key) = .ok t n) : key ≠ "" := by
  intro hk
  subst hk
  simp [validateApiKey] at h

theorem stripBearer_bearer_append (k : String)
    (hw : k.data.head?.all (fun ch => !ch.isWhitespace) = true) :
    stripBearer ("Bearer " ++ k) = k := by
  obtain ⟨d⟩ := k
  have hdata : ("Bearer " ++ String.mk d).data
      = 'B' :: 'e' :: 'a' :: 'r' :: 'e' :: 'r' :: ' ' :: d := rfl
  simp only [stripBearer, hdata, bearerRest]
  have hcond : ('B'.toLower = 'b' ∧ 'e'.toLower = 'e' ∧ 'a'.toLower = 'a' ∧ 'r'.toLower = 'r' ∧
      'e'.toLower = 'e' ∧ 'r'.toLower = 'r' ∧ ' '.isWhitespace) := by decide
  rw [if_pos hcond]
  cases d with
  | nil => rfl
  | cons c cs =>
    have hc : c.isWhitespace = false := by
      simp only [List.head?, Option.all_some] at hw
      simpa using hw
    simp [List.dropWhile, hc]

/-! Claim theorems. -/

/-- C1 (amended): the Router requires authorization on every MCP POST,
including discovery operations such as `tools/list` or `initialize` with no
session and no credential; such anonymous requests are denied with a 401
protocol-level error carrying `MissingCredential` (a reason distinct from
`UnknownCredential`) and no state changes - the tool catalog is not served
to anonymous protocol requests. -/
theorem anonymous_requests_denied_missing_credential
    (st : ServerState) (month freshSid : String) (sid : Option String)
    (body : Option RpcBody) :
    handleMcp st month freshSid (anonPostReq sid body)
        = (.authDenied 401 (-32001) .MissingCredential, st)
      ∧ DenialReason.MissingCredential ≠ DenialReason.UnknownCredential := by
  constructor
  · cases sid <;> rfl
  · intro h
    cases h

/-- C1 counterexample: a bootstrap `tools/list` request with no credential
on a fresh state is answered with the 401 MissingCredential protocol error,
not admitted without authorization, and no session is created. -/
theorem anonymous_discovery_denied_counterexample :
    (handleMcp { store := { accounts := [] }, tokens := [], transports := [] } "2026-10" "s1"
        (anonPostReq none (some { method := "tools/list", toolName := none })))
        = (.authDenied 401 (-32001) .MissingCredential,
           { store := { accounts := [] }, tokens := [], transports := [] })
      ∧ isProtocolError (.authDenied 401 (-32001) .MissingCredential) = true :=
  ⟨rfl, rfl⟩

/-- C5 (amended): closing a session that is unknown - or one that was
already closed by a previous DELETE - is answered with the 404
`Session not found` protocol error (code -32000) and leaves the state
unchanged; it is not a silent no-op success. -/
theorem close_unknown_session_is_404 :
    (∀ (st : ServerState) (month freshSid sid : String),
        List.lookup sid st.transports = none →
        handleMcp st month freshSid (deleteReq sid)
          = (.sessionNotFound 404 (-32000) "Session not found", st))
    ∧ (∀ (st : ServerState) (month freshSid sid : String) (e : SessionEntry),
        List.lookup sid st.transports = some e →
        handleMcp (handleMcp st month freshSid (deleteReq sid)).2 month freshSid (deleteReq sid)
          = (.sessionNotFound 404 (-32000) "Session not found",
             (handleMcp st month freshSid (deleteReq sid)).2)) := by
  constructor
  · intro st month freshSid sid h
    simp [handleMcp, deleteReq, blankPost, h]
  · intro st month freshSid sid e h
    simp [handleMcp, deleteReq, blankPost, h, lookup_filter_self]

/-- C5 witness: closing the unknown identifier `ghost` on a state with one
live session hits the 404 branch; closing `live` twice hits it as well. -/
theorem close_unknown_session_is_404_witness :
    (List.lookup "ghost"
        [("live", ({ apiKey := "sk_a", serverTier := .free } : SessionEntry))] = none)
    ∧ handleMcp
        { store := { accounts := [] }, tokens := [],
          transports := [("live", { apiKey := "sk_a", serverTier := .free })] }
        "2026-10" "f" (deleteReq "ghost")
        = (.sessionNotFound 404 (-32000) "Session not found",
           { store := { accounts := [] }, tokens := [],
             transports := [("live", { apiKey := "sk_a", serverTier := .free })] }) :=
  ⟨by decide,
   close_unknown_session_is_404.1
     { store := { accounts := [] }, tokens := [],
       transports := [("live", { apiKey := "sk_a", serverTier := .free })] }
     "2026-10" "f" "ghost" (by decide)⟩

/-- C5 counterexample: on an empty session registry, DELETE of an unknown
session identifier yields the 404 `Session not found` protocol error, not a
success. -/
theorem close_unknown_session_counterexample :
    handleMcp { store := { accounts := [] }, tokens := [], transports := [] } "2026-10" "f"
        (deleteReq "ghost")
        = (.sessionNotFound 404 (-32000) "Session not found",
           { store := { accounts := [] }, tokens := [], transports := [] })
      ∧ isProtocolError (.sessionNotFound 404 (-32000) "Session not found") = true :=
  ⟨rfl, rfl⟩

/-- C7: whenever the Authorizer denies the extracted credential of a POST,
the Router answers with the structured 401 protocol error carrying exactly
that denial reason, and the whole server state - Key Store usage, token
table and session registry alike - is left untouched. -/
theorem denial_is_structured_error_and_preserves_state
    (st : ServerState) (month freshSid : String) (req : McpRequest) (r : DenialReason)
    (hm : req.httpMethod = .POST)
    (hd : validateApiKey st.tokens st.store month (extractApiKey req) = .denied r) :
    handleMcp st month freshSid req = (.authDenied 401 (-32001) r, st) := by
  simp [handleMcp, hm, hd]

/-- C7 witness: an unknown key presented in the `x-api-key` header on an
empty store is denied with `UnknownCredential` and the state survives. -/
theorem denial_preserves_state_witness :
    ((presentVia .xApiKeyHdr "sk_ghost").httpMethod = HMethod.POST
      ∧ validateApiKey [] { accounts := [] } "2026-10"
          (extractApiKey (presentVia .xApiKeyHdr "sk_ghost"))
          = .denied .UnknownCredential)
    ∧ handleMcp { store := { accounts := [] }, tokens := [], transports := [] } "2026-10" "f"
        (presentVia .xApiKeyHdr "sk_ghost")
        = (.authDenied 401 (-32001) .UnknownCredential,
           { store := { accounts := [] }, tokens := [], transports := [] }) :=
  ⟨⟨by decide, by decide⟩,
   denial_is_structured_error_and_preserves_state
     { store := { accounts := [] }, tokens := [], transports := [] } "2026-10" "f"
     (presentVia .xApiKeyHdr "sk_ghost") .UnknownCredential (by decide) (by decide)⟩

/-- Helper: a denied POST is answered with the 401 error and unchanged
state (shared computation lemma over `handleMcp`). -/
theorem handleMcp_denied (st : ServerState) (month freshSid : String) (req : McpRequest)
    (r : DenialReason) (hm : req.httpMethod = .POST)
    (hd : validateApiKey st.tokens st.store month (extractApiKey req) = .denied r) :
    handleMcp st month freshSid req = (.authDenied 401 (-32001) r, st) := by
  simp [handleMcp, hm, hd]

/-- Helper: an authorized `tools/call` on an existing session records one
usage event for the presented key and dispatches the tool against the tier
captured in the session entry. -/
theorem handleMcp_toolsCall_ok (st : ServerState) (month freshSid sid key tool : String)
    (e : SessionEntry) (t : Tier) (n : String)
    (hl : List.lookup sid st.transports = some e)
    (hv : validateApiKey st.tokens st.store month (some key) = .ok t n) :
    handleMcp st month freshSid (toolsCallReq sid key tool)
      = (.toolResult (dispatchTool e.serverTier (some tool)),
         { st with store := recordUsage st.store month key }) := by
  have hk : key ≠ "" := validateApiKey_ok_ne_empty _ _ _ _ _ _ hv
  simp [handleMcp, toolsCallReq, blankPost, extractApiKey, jsOr, jsTruthyOpt, hk, hv, hl]

/-- Helper: an authorized `initialize` POST without a session header mints
the fresh session bound to the authorized tier, records one init usage
event, and registers the session entry. -/
theorem handleMcp_init_ok (st : ServerState) (month freshSid key : String) (t : Tier)
    (n : String)
    (hv : validateApiKey st.tokens st.store month (some key) = .ok t n) :
    handleMcp st month freshSid (initReq key)
      = (.newSession freshSid t,
         { st with store := recordUsage st.store month key,
                   transports := (freshSid, { apiKey := key, serverTier := t })
                                   :: st.transports }) := by
  have hk : key ≠ "" := validateApiKey_ok_ne_empty _ _ _ _ _ _ hv
  simp [handleMcp, newSessionPost, initReq, blankPost, extractApiKey, jsOr, jsTruthyOpt, hk, hv]

/-- C2: metering and quota.  First, starting from an account with no usage
in the month, N recorded invocations make `usageSnapshot` report exactly
used = N (with the tier and its limit).  Second, a `tools/call` presented
with a key whose current-month usage already reached the tier limit is
denied by the Router with the 401 `QuotaExceeded` protocol error and the
state is unchanged. -/
theorem usage_metering_and_quota :
    (∀ (st : KeyStore) (month key : String) (a : Account) (N : Nat),
        st.accounts.find? (fun x => x.key == key) = some a →
        a.usage month = 0 →
        getKeyUsage (recordUsageN st month key N) month key
          = some (a.tier, TIER_LIMITS a.tier, N))
    ∧ (∀ (st : ServerState) (month freshSid sid key : String) (a : Account),
        st.store.accounts.find? (fun x => x.key == key) = some a →
        List.lookup key st.tokens = none →
        key ≠ "" →
        TIER_LIMITS a.tier ≤ a.usage month →
        handleMcp st month freshSid (toolsCallReq sid key "analyze_competitors")
          = (.authDenied 401 (-32001) .QuotaExceeded, st)) := by
  constructor
  · intro st month key a N ha h0
    have hf := find?_recordUsageN st month key a ha N
    simp [getKeyUsage, hf, bumpUsageN_tier, bumpUsageN_usage, h0]
  · intro st month freshSid sid key a ha htok hk hq
    have hval : validateApiKey st.tokens st.store month (some key)
        = .denied .QuotaExceeded := by
      simp [validateApiKey, hk, htok, ha, hq]
    have h2 : validateApiKey st.tokens st.store month
        (extractApiKey (toolsCallReq sid key "analyze_competitors"))
        = .denied .QuotaExceeded := by
      rw [extract_toolsCallReq _ _ _ hk]
      exact hval
    exact handleMcp_denied st month freshSid _ _ rfl h2

/-- C2 witness: from zero usage, three invocations report used = 3; a free
key at usage 10 (limit 10) is denied with QuotaExceeded by the Router. -/
theorem usage_metering_and_quota_witness :
    (({ accounts := [{ key := "sk_w", name := "W", email := "w@x.com", tier := .free,
                       usage := fun _ => 0 }] } : KeyStore).accounts.find?
          (fun x => x.key == "sk_w")
        = some { key := "sk_w", name := "W", email := "w@x.com", tier := .free,
                 usage := fun _ => 0 }
      ∧ getKeyUsage (recordUsageN
          { accounts := [{ key := "sk_w", name := "W", email := "w@x.com", tier := .free,
                           usage := fun _ => 0 }] } "2026-10" "sk_w" 3) "2026-10" "sk_w"
          = some (.free, 10, 3))
    ∧ handleMcp
        { store := { accounts := [{ key := "sk_q", name := "Q", email := "q@x.com",
                                    tier := .free, usage := fun _ => 10 }] },
          tokens := [], transports := [] }
        "2026-10" "f" (toolsCallReq "s1" "sk_q" "analyze_competitors")
        = (.authDenied 401 (-32001) .QuotaExceeded,
           { store := { accounts := [{ key := "sk_q", name := "Q", email := "q@x.com",
                                       tier := .free, usage := fun _ => 10 }] },
             tokens := [], transports := [] }) :=
  ⟨⟨rfl,
    usage_metering_and_quota.1
      { accounts := [{ key := "sk_w", name := "W", email := "w@x.com", tier := .free,
                       usage := fun _ => 0 }] }
      "2026-10" "sk_w"
      { key := "sk_w", name := "W", email := "w@x.com", tier := .free, usage := fun _ => 0 }
      3 rfl rfl⟩,
   usage_metering_and_quota.2
     { store := { accounts := [{ key := "sk_q", name := "Q", email := "q@x.com",
                                 tier := .free, usage := fun _ => 10 }] },
       tokens := [], transports := [] }
     "2026-10" "f" "s1" "sk_q"
     { key := "sk_q", name := "Q", email := "q@x.com", tier := .free, usage := fun _ => 10 }
     rfl rfl (by decide) (by decide)⟩

/-- C4: signing up twice with the same email returns the same key both
times (the second response recovers the existing account), the second
signup leaves the store exactly as the first left it (no second account),
and the returned key is present in both responses. -/
theorem signup_idempotent (st : KeyStore) (m1 m2 f1 f2 n1 n2 email : String)
    (he : email ≠ "") (h1 : n1 ≠ "") (h2 : n2 ≠ "") :
    signupKey (signup st m1 f1 n1 email).1
        = signupKey (signup (signup st m1 f1 n1 email).2 m2 f2 n2 email).1
      ∧ (signup (signup st m1 f1 n1 email).2 m2 f2 n2 email).2 = (signup st m1 f1 n1 email).2
      ∧ ∃ k, signupKey (signup st m1 f1 n1 email).1 = some k := by
  have hg1 : ¬(email = "" ∨ n1 = "") := not_or.mpr ⟨he, h1⟩
  have hg2 : ¬(email = "" ∨ n2 = "") := not_or.mpr ⟨he, h2⟩
  cases hfind : getKeyByEmail st email with
  | some e =>
    simp only [signup, if_neg hg1, if_neg hg2, hfind]
    exact ⟨by trivial, by trivial, ⟨e.key, by rfl⟩⟩
  | none =>
    have hfind2 : getKeyByEmail (createApiKey st f1 n1 .free email).1 email
        = some { key := f1, name := n1, email := email, tier := .free,
                 usage := fun _ => 0 } := by
      simp [getKeyByEmail, createApiKey]
    simp only [signup, if_neg hg1, if_neg hg2, hfind, hfind2]
    exact ⟨by trivial, by trivial, ⟨f1, by rfl⟩⟩

/-- C4 witness: two signups for `a@x.com` on an empty store return the key
`sk_1` both times and the second leaves the store unchanged. -/
theorem signup_idempotent_witness :
    ("a@x.com" ≠ "" ∧ "Alice" ≠ "" ∧ "Alicia" ≠ "")
    ∧ (signupKey (signup { accounts := [] } "2026-10" "sk_1" "Alice" "a@x.com").1
        = signupKey (signup (signup { accounts := [] } "2026-10" "sk_1" "Alice" "a@x.com").2
            "2026-11" "sk_2" "Alicia" "a@x.com").1
      ∧ (signup (signup { accounts := [] } "2026-10" "sk_1" "Alice" "a@x.com").2
            "2026-11" "sk_2" "Alicia" "a@x.com").2
          = (signup { accounts := [] } "2026-10" "sk_1" "Alice" "a@x.com").2
      ∧ ∃ k, signupKey (signup { accounts := [] } "2026-10" "sk_1" "Alice" "a@x.com").1
          = some k) :=
  ⟨⟨by decide, by decide, by decide⟩,
   signup_idempotent { accounts := [] } "2026-10" "2026-11" "sk_1" "sk_2" "Alice" "Alicia"
     "a@x.com" (by decide) (by decide) (by decide)⟩

/-- C6: the credential chain of the source resolves exactly the first
carrier in the documented precedence order (dedicated header, alternate
header, the three query spellings, bearer token) that holds a truthy
value: whenever the specification-side first-match reading yields a value,
the extraction of the source yields that same single value. -/
theorem credential_precedence_first_match (req : McpRequest) (k : String)
    (h : specCredentialPrecedence req = some k) : extractApiKey req = some k := by
  unfold specCredentialPrecedence at h
  unfold extractApiKey
  refine jsOr_of_firstTruthy k _ _ _ (fun h1 => ?_) h
  refine jsOr_of_firstTruthy k _ _ _ (fun h2 => ?_) h1
  refine jsOr_of_firstTruthy k _ _ _ (fun h3 => ?_) h2
  refine jsOr_of_firstTruthy k _ _ _ (fun h4 => ?_) h3
  refine jsOr_of_firstTruthy k _ _ _ (fun h5 => ?_) h4
  exact firstTruthy_single k _ h5

/-- C6 witness: with the alternate header and a query parameter both
present, the alternate header (earlier in the precedence order) wins. -/
theorem credential_precedence_first_match_witness :
    specCredentialPrecedence
        { blankPost with apikeyHeader := some "sk_2", q_api_key := some "sk_3" }
        = some "sk_2"
    ∧ extractApiKey
        { blankPost with apikeyHeader := some "sk_2", q_api_key := some "sk_3" }
        = some "sk_2" :=
  ⟨by decide,
   credential_precedence_first_match
     { blankPost with apikeyHeader := some "sk_2", q_api_key := some "sk_3" } "sk_2"
     (by decide)⟩

/-- Helper: each carrier presents the same credential value to the
Authorizer. -/
theorem extract_presentVia (c : Carrier) (k : String) (hk : k ≠ "")
    (hw : k.data.head?.all (fun ch => !ch.isWhitespace) = true) :
    extractApiKey (presentVia c k) = some k := by
  cases c <;>
    simp [presentVia, blankPost, extractApiKey, jsOr, hk, stripBearer_bearer_append k hw]

/-- C8: carrier-transparency - for any credential value (nonempty, not
starting in whitespace, as real keys are), the authorization decision the
Router computes is the same whichever of the accepted carriers presented
it. -/
theorem authorize_carrier_transparent (c1 c2 : Carrier) (st : ServerState) (month k : String)
    (hk : k ≠ "") (hw : k.data.head?.all (fun ch => !ch.isWhitespace) = true) :
    routerDecision st month (presentVia c1 k) = routerDecision st month (presentVia c2 k) := by
  unfold routerDecision
  rw [extract_presentVia c1 k hk hw, extract_presentVia c2 k hk hw]

/-- C8 witness: the dedicated header and the bearer authorization header
yield the same decision for the key `sk_biz_test`. -/
theorem authorize_carrier_transparent_witness :
    ("sk_biz_test" ≠ ""
      ∧ "sk_biz_test".data.head?.all (fun ch => !ch.isWhitespace) = true)
    ∧ routerDecision { store := { accounts := [] }, tokens := [], transports := [] }
          "2026-10" (presentVia .xApiKeyHdr "sk_biz_test")
        = routerDecision { store := { accounts := [] }, tokens := [], transports := [] }
          "2026-10" (presentVia .bearerAuthHdr "sk_biz_test") :=
  ⟨⟨by decide, by decide⟩,
   authorize_carrier_transparent .xApiKeyHdr .bearerAuthHdr
     { store := { accounts := [] }, tokens := [], transports := [] } "2026-10" "sk_biz_test"
     (by decide) (by decide)⟩

/-- C3: completing an authorization that bound the challenge computed from
a verifier, then exchanging the issued code with that exact verifier,
succeeds and mints an access token that resolves back to the same
underlying API key bound during authorization; any second exchange of the
same code - whatever verifier, clock or fresh token - fails with
`InvalidGrant`. -/
theorem oauth_pkce_round_trip (transform : String → String) (os0 : OAuthBridgeState)
    (code verifier method key : String) (expiresAt now : Nat) (tok : String)
    (hexp : now < expiresAt) :
    ∃ os1,
      exchangeCode transform
          (completeAuthorization os0 code (transform verifier) method key expiresAt)
          now tok code verifier = .ok (tok, os1)
      ∧ resolveToken os1 tok = some key
      ∧ ∀ (now2 : Nat) (tok2 verifier2 : String),
          exchangeCode transform os1 now2 tok2 code verifier2 = .error .InvalidGrant := by
  have hnl : ¬(expiresAt ≤ now) := Nat.not_le.mpr hexp
  refine ⟨{ codes := ((completeAuthorization os0 code (transform verifier) method key
                expiresAt).codes).map
              (fun c => if c.code == code then { c with exchanged := true } else c),
            tokens := (tok, key) :: os0.tokens }, ?_, ?_, ?_⟩
  · simp [exchangeCode, completeAuthorization, hnl]
  · simp [resolveToken, List.lookup]
  · intro now2 tok2 verifier2
    simp [exchangeCode, completeAuthorization]

/-- C3 witness: a plain-method authorization for key `sk_w`, exchanged with
the matching verifier, resolves back to `sk_w`; the code is then dead. -/
theorem oauth_pkce_round_trip_witness :
    0 < 600
    ∧ ∃ os1,
        exchangeCode (fun s => s)
            (completeAuthorization { codes := [], tokens := [] } "c1"
              ((fun s => s) "v1") "plain" "sk_w" 600)
            0 "tok1" "c1" "v1" = .ok ("tok1", os1)
        ∧ resolveToken os1 "tok1" = some "sk_w"
        ∧ ∀ (now2 : Nat) (tok2 verifier2 : String),
            exchangeCode (fun s => s) os1 now2 tok2 "c1" verifier2 = .error .InvalidGrant :=
  ⟨by decide,
   oauth_pkce_round_trip (fun s => s) { codes := [], tokens := [] } "c1" "v1" "plain" "sk_w"
     600 0 "tok1" (by decide)⟩

/-- C9 (amended): every authorization decision re-reads validity, tier and
usage from the current Key Store (denials, including quota denials, track
current state, and a session created after an upgrade captures the new
tier); but the per-session McpServer captures the tier in its tool
closures at session creation, so tier gating of Pro/Business tools within
an existing session uses the creation-time tier - regardless of the
account's current tier - and an upgrade affects tool gating only for
sessions created afterwards. -/
theorem tier_gate_uses_session_creation_tier :
    (∀ (st : ServerState) (month freshSid sid key : String) (e : SessionEntry) (t : Tier)
        (n : String),
        List.lookup sid st.transports = some e →
        validateApiKey st.tokens st.store month (some key) = .ok t n →
        PRO_TIERS.contains e.serverTier = false →
        (handleMcp st month freshSid (toolsCallReq sid key "customer_persona")).1
          = .toolResult (.textResult (upgradeMsg "Customer Persona Builder")))
    ∧ (∀ (st : ServerState) (month freshSid key : String) (t : Tier) (n : String),
        validateApiKey st.tokens st.store month (some key) = .ok t n →
        (handleMcp st month freshSid (initReq key)).2.transports
          = (freshSid, { apiKey := key, serverTier := t }) :: st.transports)
    ∧ (∀ (st : ServerState) (month freshSid : String) (req : McpRequest) (r : DenialReason),
        req.httpMethod = .POST →
        validateApiKey st.tokens st.store month (extractApiKey req) = .denied r →
        (handleMcp st month freshSid req).1 = .authDenied 401 (-32001) r) := by
  refine ⟨?_, ?_, ?_⟩
  · intro st month freshSid sid key e t n hl hv hpro
    rw [handleMcp_toolsCall_ok st month freshSid sid key "customer_persona" e t n hl hv]
    have hmem : e.serverTier ∉ PRO_TIERS := by simpa using hpro
    simp [dispatchTool, hmem]
  · intro st month freshSid key t n hv
    rw [handleMcp_init_ok st month freshSid key t n hv]
  · intro st month freshSid req r hm hd
    rw [handleMcp_denied st month freshSid req r hm hd]

/-- C9 witness: with the account currently at pro but the live session
created while it was free, the Pro tool is still gated; a session created
now captures pro. -/
theorem tier_gate_uses_session_creation_tier_witness :
    (validateApiKey []
        { accounts := [{ key := "sk_a", name := "Alice", email := "alice@example.com",
                         tier := .pro, usage := fun _ => 1 }] }
        "2026-10" (some "sk_a") = .ok .pro "Alice"
      ∧ PRO_TIERS.contains Tier.free = false)
    ∧ (handleMcp
        { store := { accounts := [{ key := "sk_a", name := "Alice",
                                    email := "alice@example.com", tier := .pro,
                                    usage := fun _ => 1 }] },
          tokens := [],
          transports := [("sid1", { apiKey := "sk_a", serverTier := .free })] }
        "2026-10" "sid2" (toolsCallReq "sid1" "sk_a" "customer_persona")).1
        = .toolResult (.textResult (upgradeMsg "Customer Persona Builder")) :=
  ⟨⟨by decide, by decide⟩,
   tier_gate_uses_session_creation_tier.1
     { store := { accounts := [{ key := "sk_a", name := "Alice",
                                 email := "alice@example.com", tier := .pro,
                                 usage := fun _ => 1 }] },
       tokens := [],
       transports := [("sid1", { apiKey := "sk_a", serverTier := .free })] }
     "2026-10" "sid2" "sid1" "sk_a" { apiKey := "sk_a", serverTier := .free } .pro "Alice"
     (by decide) (by decide) (by decide)⟩

/-- C9 counterexample: Alice signs up free, opens a session, is upgraded to
pro; the very next `customer_persona` call on her existing session still
returns the upgrade-required text although the Key Store already reads pro
- while the same call on a session created after the upgrade invokes the
tool.  The claim that a tier upgrade between two requests is reflected in
tier gating within an existing session is therefore false on the code. -/
theorem tier_upgrade_not_reflected_in_session_counterexample :
    (let st0 : ServerState :=
      { store := { accounts := [{ key := "sk_a", name := "Alice",
                                  email := "alice@example.com", tier := .free,
                                  usage := fun _ => 0 }] },
        tokens := [], transports := [] };
    let st1 := (handleMcp st0 "2026-10" "sid1" (initReq "sk_a")).2;
    let st2 : ServerState := { st1 with store := upgradeKey st1.store "alice@example.com" .pro };
    (handleMcp st2 "2026-10" "sid2" (toolsCallReq "sid1" "sk_a" "customer_persona")).1
        = .toolResult (.textResult (upgradeMsg "Customer Persona Builder"))
      ∧ (getKeyUsage st2.store "2026-10" "sk_a").map (fun u => u.1) = some Tier.pro
      ∧ (handleMcp (handleMcp st2 "2026-10" "sid3" (initReq "sk_a")).2 "2026-10" "sid4"
          (toolsCallReq "sid3" "sk_a" "customer_persona")).1
          = .toolResult (.invokeExternal "buildCustomerPersona")) :=
  ⟨rfl, rfl, rfl⟩

/-- C10: a `tools/call` on an existing session whose captured tier is below
the required tier of a Pro or Business tool still records exactly one
quota-consuming usage event for the key, and then returns a successful
tool result whose text payload is the upgrade message - not a
protocol-level error. -/
theorem gated_tool_call_records_usage (st : ServerState)
    (month freshSid sid key : String) (e : SessionEntry) (t : Tier) (n : String)
    (hl : List.lookup sid st.transports = some e)
    (hv : validateApiKey st.tokens st.store month (some key) = .ok t n) :
    (PRO_TIERS.contains e.serverTier = false →
      handleMcp st month freshSid (toolsCallReq sid key "customer_persona")
          = (.toolResult (.textResult (upgradeMsg "Customer Persona Builder")),
             { st with store := recordUsage st.store month key })
        ∧ isProtocolError
            (handleMcp st month freshSid (toolsCallReq sid key "customer_persona")).1 = false)
    ∧ (e.serverTier ≠ .business →
      handleMcp st month freshSid (toolsCallReq sid key "business_plan_section")
          = (.toolResult (.textResult businessPlanUpgradeMsg),
             { st with store := recordUsage st.store month key }))
    ∧ (∀ a, st.store.accounts.find? (fun x => x.key == key) = some a →
        getKeyUsage (recordUsage st.store month key) month key
          = some (a.tier, TIER_LIMITS a.tier, a.usage month + 1)) := by
  refine ⟨?_, ?_, ?_⟩
  · intro hpro
    have hmem : e.serverTier ∉ PRO_TIERS := by simpa using hpro
    have h := handleMcp_toolsCall_ok st month freshSid sid key "customer_persona" e t n hl hv
    rw [h]
    constructor
    · simp [dispatchTool, hmem]
    · rfl
  · intro hbus
    have h := handleMcp_toolsCall_ok st month freshSid sid key "business_plan_section" e t n hl hv
    rw [h]
    simp [dispatchTool, hbus]
  · intro a ha
    have hf := find?_recordUsageN st.store month key a ha 1
    simp only [recordUsageN] at hf
    simp [getKeyUsage, hf, bumpUsageN, bumpUsage]

/-- C10 witness: a starter-tier session calling the Pro tool has one usage
event recorded (2 becomes 3) and receives the upgrade text as a successful
tool result. -/
theorem gated_tool_call_records_usage_witness :
    (List.lookup "sx" [("sx", ({ apiKey := "sk_s", serverTier := .starter } : SessionEntry))]
        = some { apiKey := "sk_s", serverTier := .starter }
      ∧ PRO_TIERS.contains Tier.starter = false)
    ∧ handleMcp
        { store := { accounts := [{ key := "sk_s", name := "S", email := "s@x.com",
                                    tier := .starter, usage := fun _ => 2 }] },
          tokens := [], transports := [("sx", { apiKey := "sk_s", serverTier := .starter })] }
        "2026-10" "f" (toolsCallReq "sx" "sk_s" "customer_persona")
        = (.toolResult (.textResult (upgradeMsg "Customer Persona Builder")),
           { store := recordUsage
               { accounts := [{ key := "sk_s", name := "S", email := "s@x.com",
                                tier := .starter, usage := fun _ => 2 }] } "2026-10" "sk_s",
             tokens := [],
             transports := [("sx", { apiKey := "sk_s", serverTier := .starter })] })
    ∧ getKeyUsage
        (recordUsage
          { accounts := [{ key := "sk_s", name := "S", email := "s@x.com",
                           tier := .starter, usage := fun _ => 2 }] } "2026-10" "sk_s")
        "2026-10" "sk_s" = some (.starter, 200, 3) :=
  ⟨⟨by decide, by decide⟩,
   ((gated_tool_call_records_usage
       { store := { accounts := [{ key := "sk_s", name := "S", email := "s@x.com",
                                   tier := .starter, usage := fun _ => 2 }] },
         tokens := [], transports := [("sx", { apiKey := "sk_s", serverTier := .starter })] }
       "2026-10" "f" "sx" "sk_s" { apiKey := "sk_s", serverTier := .starter } .starter "S"
       (by decide) (by decide)).1 (by decide)).1,
   (gated_tool_call_records_usage
       { store := { accounts := [{ key := "sk_s", name := "S", email := "s@x.com",
                                   tier := .starter, usage := fun _ => 2 }] },
         tokens := [], transports := [("sx", { apiKey := "sk_s", serverTier := .starter })] }
       "2026-10" "f" "sx" "sk_s" { apiKey := "sk_s", serverTier := .starter } .starter "S"
       (by decide) (by decide)).2.2
     { key := "sk_s", name := "S", email := "s@x.com", tier := .starter, usage := fun _ => 2 }
     rfl⟩

/-- C1 witness: an anonymous `initialize` request on an empty state is
denied with MissingCredential and the state is untouched. -/
theorem anonymous_requests_denied_missing_credential_witness :
    handleMcp { store := { accounts := [] }, tokens := [], transports := [] } "2026-10" "w1"
        (anonPostReq none (some { method := "initialize", toolName := none }))
        = (.authDenied 401 (-32001) .MissingCredential,
           { store := { accounts := [] }, tokens := [], transports := [] })
      ∧ DenialReason.MissingCredential ≠ DenialReason.UnknownCredential :=
  anonymous_requests_denied_missing_credential
    { store := { accounts := [] }, tokens := [], transports := [] } "2026-10" "w1" none
    (some { method := "initialize", toolName := none })
